import Mathlib

/-!
Verification of the nrx-backend persistent ledger store (`src/server.js`,
hardened version). The JavaScript snapshot object and the request handlers are
shallowly embedded: JS numbers become `ℚ`, timestamps become `Int`
(milliseconds since epoch), date strings become `String`, JS objects become
association lists in insertion order, and the nondeterministic inputs of a
handler (generated id, current time, current date string, random boost amount)
become explicit parameters. A request field that may be absent is an `Option`;
a JS number that may be `NaN` (the result of `Number(...)` on a non-numeric
value) is an `Option ℚ` with `none` standing for `NaN`.
-/

namespace NrxBackend

/-- Result of JS `Number(x)` coercion: `none` models `NaN`. -/
abbrev JsNum := Option ℚ

/-- JS truthiness fallback `q || fb` on an actual number: `0` is falsy. -/
def jsOr (q fb : ℚ) : ℚ := if q = 0 then fb else q

/-- JS `Number(v) || fb`: `NaN` and `0` are falsy, so both fall back. -/
def numOr (v : JsNum) (fb : ℚ) : ℚ :=
  match v with
  | none => fb
  | some q => if q = 0 then fb else q

/-- A session record, as created by `POST /api/session` in server.js.
`startedAt`/`lastActive` are `Option` so that the retention sweep's
`session.lastActive || session.startedAt || 0` fallback can be modelled. -/
structure Session where
  id : String
  userAgent : String
  startedAt : Option Int
  lastActive : Option Int
  minedTokens : ℚ
  miningSpeed : ℚ
  completedTasks : List String
  totalMiningTime : ℚ
  withdrawals : List String
  boosts : List String
  dailyMined : ℚ
  lastResetDate : String
  deriving Repr, DecidableEq

/-- Withdrawal status; server.js only ever writes `pending` and `completed`. -/
inductive WStatus where
  | pending
  | completed
  deriving Repr, DecidableEq

/-- A withdrawal record, as created by `POST /api/withdrawals`. -/
structure Withdrawal where
  id : String
  sessionId : String
  walletAddress : String
  amount : ℚ
  network : String
  status : WStatus
  createdAt : Int
  completedAt : Option Int
  ogadsVerified : Bool
  deriving Repr, DecidableEq

/-- A boost record, as created by `POST /api/boosts`. -/
structure Boost where
  id : String
  sessionId : String
  boostAmount : ℚ
  createdAt : Int
  verified : Bool
  verifiedAt : Option Int
  taskType : String
  deriving Repr, DecidableEq

/-- An activity record (`POST /api/activity`). -/
structure Activity where
  id : String
  sessionId : String
  atype : String
  timestamp : Int
  deriving Repr, DecidableEq

/-- The `stats` aggregate of the snapshot. -/
structure Stats where
  totalUsers : ℚ
  totalMined : ℚ
  totalWithdrawals : ℚ
  activeSessions : ℚ
  totalBoostCount : ℚ
  totalWithdrawalCount : ℚ
  deriving Repr, DecidableEq

/-- The whole persisted snapshot (`database.json`), fully shaped. -/
structure DB where
  users : List (String × String)
  sessions : List (String × Session)
  withdrawals : List (String × Withdrawal)
  activities : List Activity
  boosts : List Boost
  stats : Stats
  deriving Repr, DecidableEq

/-- Lookup in a JS object modelled as an association list (first match). -/
def alookup {α : Type} (m : List (String × α)) (k : String) : Option α :=
  match m with
  | [] => none
  | p :: rest => if p.1 = k then some p.2 else alookup rest k

/-- In-place mutation of the value found under a key (first match), as JS
`obj[k].field = ...` does after a successful lookup. -/
def aupdate {α : Type} (m : List (String × α)) (k : String) (f : α → α) :
    List (String × α) :=
  match m with
  | [] => []
  | p :: rest => if p.1 = k then (p.1, f p.2) :: rest else p :: aupdate rest k f

/-- JS `obj[k] = v` for a fresh key: appended in insertion order. -/
def ainsert {α : Type} (m : List (String × α)) (k : String) (v : α) :
    List (String × α) :=
  m ++ [(k, v)]

/-- In-place mutation of the first boost whose `id` matches, as the code's
`findIndex` followed by mutation of `db.boosts[boostIndex]`. -/
def replaceFirst (l : List Boost) (boostId : String) (b' : Boost) : List Boost :=
  match l with
  | [] => []
  | b :: rest => if b.id = boostId then b' :: rest else b :: replaceFirst rest boostId b'

/-- `Object.values(db.sessions).reduce((sum, s) => sum + Number(s.minedTokens || 0), 0)`
from the save-state handler. For `ℚ` values the left fold from `0` equals the
sum of the mapped list, which is the form used here. -/
def sumMined (m : List (String × Session)) : ℚ :=
  (m.map (fun p => p.2.minedTokens)).sum

/-- `DEFAULT_DB.stats` from server.js. -/
def defaultStats : Stats :=
  { totalUsers := 0
    totalMined := 0
    totalWithdrawals := 0
    activeSessions := 0
    totalBoostCount := 0
    totalWithdrawalCount := 0 }

/-- `DEFAULT_DB` from server.js: the default-shaped empty snapshot. -/
def DEFAULT_DB : DB :=
  { users := []
    sessions := []
    withdrawals := []
    activities := []
    boosts := []
    stats := defaultStats }

/-- A raw parsed snapshot: every top-level field may be absent. -/
structure RawStats where
  totalUsers : Option ℚ
  totalMined : Option ℚ
  totalWithdrawals : Option ℚ
  activeSessions : Option ℚ
  totalBoostCount : Option ℚ
  totalWithdrawalCount : Option ℚ
  deriving Repr, DecidableEq

/-- A raw parsed snapshot (result of `JSON.parse` on a possibly older or
partial file): each top-level field may be absent. -/
structure RawDB where
  users : Option (List (String × String))
  sessions : Option (List (String × Session))
  withdrawals : Option (List (String × Withdrawal))
  activities : Option (List Activity)
  boosts : Option (List Boost)
  stats : Option RawStats
  deriving Repr, DecidableEq

/-- `Object.assign({}, DEFAULT_DB.stats, merged.stats || {})` from `readDB`:
each missing sub-field of `stats` is backfilled independently. -/
def reshapeStats (raw : Option RawStats) : Stats :=
  match raw with
  | none => defaultStats
  | some r =>
    { totalUsers := r.totalUsers.getD 0
      totalMined := r.totalMined.getD 0
      totalWithdrawals := r.totalWithdrawals.getD 0
      activeSessions := r.activeSessions.getD 0
      totalBoostCount := r.totalBoostCount.getD 0
      totalWithdrawalCount := r.totalWithdrawalCount.getD 0 }

/-- The schema-backfilling reshape of `readDB` (lines 76-86):
`Object.assign({}, DEFAULT_DB, parsed)` followed by the per-collection
coercions and the nested stats merge. A present field is kept as is; an
absent field receives the default. -/
def reshape (raw : RawDB) : DB :=
  { users := raw.users.getD []
    sessions := raw.sessions.getD []
    withdrawals := raw.withdrawals.getD []
    activities := raw.activities.getD []
    boosts := raw.boosts.getD []
    stats := reshapeStats raw.stats }

/-- View a fully shaped snapshot as a raw one (every field present), for
stating that reshape is idempotent. -/
def toRaw (db : DB) : RawDB :=
  { users := some db.users
    sessions := some db.sessions
    withdrawals := some db.withdrawals
    activities := some db.activities
    boosts := some db.boosts
    stats := some
      { totalUsers := some db.stats.totalUsers
        totalMined := some db.stats.totalMined
        totalWithdrawals := some db.stats.totalWithdrawals
        activeSessions := some db.stats.activeSessions
        totalBoostCount := some db.stats.totalBoostCount
        totalWithdrawalCount := some db.stats.totalWithdrawalCount } }

/-- `readDB` from server.js. The file argument models the three cases of the
try/catch: `none` = `fs.readFileSync` threw (file absent or unreadable),
`some none` = the contents did not parse as JSON (corrupt), and
`some (some raw)` = the contents parsed to the raw snapshot `raw`.
The catch path returns a deep copy of `DEFAULT_DB`; the success path merges
with the defaults. -/
def readDB (file : Option (Option RawDB)) : DB :=
  match file with
  | none => DEFAULT_DB
  | some none => DEFAULT_DB
  | some (some raw) => reshape raw

/-- `session.lastActive || session.startedAt || 0` from `cleanupOldSessions`. -/
def effLastActive (s : Session) : Int :=
  s.lastActive.getD (s.startedAt.getD 0)

/-- Milliseconds in 24 hours, the retention cutoff span. -/
def dayMs : Int := 24 * 60 * 60 * 1000

/-- `cleanupOldSessions` from server.js: delete every session whose effective
last-activity time is strictly before `now - 24h`; when anything was removed,
recompute `activeSessions` and `totalUsers` from the remaining sessions and
persist, otherwise leave the snapshot untouched. -/
def cleanupOldSessions (db : DB) (now : Int) : DB :=
  let cutoff := now - dayMs
  let kept := db.sessions.filter (fun p => decide (¬ effLastActive p.2 < cutoff))
  let cleaned := db.sessions.length - kept.length
  if 0 < cleaned then
    { db with
      sessions := kept
      stats := { db.stats with
        activeSessions := (kept.length : ℚ)
        totalUsers := (kept.length : ℚ) } }
  else db

/-- `POST /api/session`: create a session with the documented defaults, update
the session-derived counters, persist. `sessionId` is the generated id, `now`
the current time, `today` the current date string. -/
def createSession (db : DB) (sessionId : String) (ua : Option String)
    (startedAt : Option Int) (now : Int) (today : String) : DB :=
  let s : Session :=
    { id := sessionId
      userAgent := ua.getD "Unknown"
      startedAt := some (startedAt.getD now)
      lastActive := some now
      minedTokens := 0
      miningSpeed := 20
      completedTasks := []
      totalMiningTime := 0
      withdrawals := []
      boosts := []
      dailyMined := 0
      lastResetDate := today }
  let sessions := ainsert db.sessions sessionId s
  { db with
    sessions := sessions
    stats := { db.stats with
      activeSessions := (sessions.length : ℚ)
      totalUsers := (sessions.length : ℚ) } }

/-- The response body of `GET /api/session/:sessionId/state`. -/
structure SessionView where
  minedTokens : ℚ
  dailyMined : ℚ
  miningSpeed : ℚ
  completedTasks : List String
  totalMiningTime : ℚ
  dailyLimit : ℚ
  deriving Repr, DecidableEq

/-- `GET /api/session/:sessionId/state`: lazy daily reset on date mismatch,
touch `lastActive`, persist, and answer with the coerced view. `none` models
the 404 response. -/
def getSessionState (db : DB) (sessionId : String) (now : Int) (today : String) :
    DB × Option SessionView :=
  match alookup db.sessions sessionId with
  | none => (db, none)
  | some s0 =>
    let s1 := if s0.lastResetDate ≠ today
      then { s0 with dailyMined := 0, lastResetDate := today }
      else s0
    let s2 := { s1 with lastActive := some now }
    let db' := { db with sessions := aupdate db.sessions sessionId (fun _ => s2) }
    (db', some
      { minedTokens := jsOr s2.minedTokens 0
        dailyMined := jsOr s2.dailyMined 0
        miningSpeed := jsOr s2.miningSpeed 20
        completedTasks := s2.completedTasks
        totalMiningTime := jsOr s2.totalMiningTime 0
        dailyLimit := 20 })

/-- The request body of `POST /api/session/:sessionId/state`. The outer
`Option` is field presence (`!== undefined`); the inner `JsNum` is the result
of `Number(...)` on the supplied value. `completedTasks`'s inner `Option` is
`Array.isArray`: `some none` means present but not an array. -/
structure StateBody where
  minedTokens : Option JsNum
  miningSpeed : Option JsNum
  completedTasks : Option (Option (List String))
  totalMiningTime : Option JsNum
  dailyMined : Option JsNum
  deriving Repr, DecidableEq

/-- The field-by-field update of the save-state handler (lines 219-236).
Each JS assignment reads only that field's own previous value, so the
sequential assignments equal this simultaneous record update. -/
def applyStateBody (body : StateBody) (s : Session) (now : Int) : Session :=
  { s with
    minedTokens :=
      match body.minedTokens with
      | none => s.minedTokens
      | some v => numOr v 0
    miningSpeed :=
      match body.miningSpeed with
      | none => s.miningSpeed
      | some v => numOr v s.miningSpeed
    completedTasks :=
      match body.completedTasks with
      | some (some l) => l
      | _ => s.completedTasks
    totalMiningTime :=
      match body.totalMiningTime with
      | none => s.totalMiningTime
      | some v => numOr v s.totalMiningTime
    dailyMined :=
      match body.dailyMined with
      | none => s.dailyMined
      | some v => numOr v (jsOr s.dailyMined 0)
    lastActive := some now }

/-- `POST /api/session/:sessionId/state`: apply the partial update, recompute
`stats.totalMined` over all sessions, persist. The `Bool` is the `success`
flag; `false` models the 404 response (snapshot untouched). -/
def setSessionState (db : DB) (sessionId : String) (body : StateBody) (now : Int) :
    DB × Bool :=
  match alookup db.sessions sessionId with
  | none => (db, false)
  | some s0 =>
    let s1 := applyStateBody body s0 now
    let sessions := aupdate db.sessions sessionId (fun _ => s1)
    ({ db with
        sessions := sessions
        stats := { db.stats with totalMined := sumMined sessions } },
      true)

/-- Errors of `POST /api/boosts`. -/
inductive BoostErr where
  | MissingSession
  | NotFound
  deriving Repr, DecidableEq

/-- `POST /api/boosts`: record an unverified boost with the drawn amount and
append its id to the owning session's boost list. -/
def createBoost (db : DB) (sessionId : Option String) (boostId : String)
    (boostAmount : ℚ) (requestedAt : Option Int) (taskType : Option String)
    (now : Int) : DB × Except BoostErr (String × ℚ) :=
  match sessionId with
  | none => (db, .error .MissingSession)
  | some sid =>
    match alookup db.sessions sid with
    | none => (db, .error .NotFound)
    | some _ =>
      let boost : Boost :=
        { id := boostId
          sessionId := sid
          boostAmount := boostAmount
          createdAt := requestedAt.getD now
          verified := false
          verifiedAt := none
          taskType := taskType.getD "general" }
      let boosts := db.boosts ++ [boost]
      let sessions := aupdate db.sessions sid
        (fun s => { s with boosts := s.boosts ++ [boostId] })
      ({ db with
          boosts := boosts
          sessions := sessions
          stats := { db.stats with totalBoostCount := (boosts.length : ℚ) } },
        .ok (boostId, boostAmount))

/-- Errors of `POST /api/boosts/:boostId/verify`. -/
inductive VerifyErr where
  | NotFound
  | Unauthorized
  deriving Repr, DecidableEq

/-- The success payload of the verify-boost handler. -/
structure VerifyResult where
  boostAmount : ℚ
  newSpeed : ℚ
  deriving Repr, DecidableEq

/-- `POST /api/boosts/:boostId/verify` (lines 304-344): find the boost, check
the caller owns it, mark it verified and stamp `verifiedAt`, then — if the
owning session still exists — add the boost amount to its mining speed
unconditionally and insert the `boost-<id>` marker into `completedTasks` only
if it is not already there. When the session is gone, no session is mutated
and `newSpeed` is reported as `0`. -/
def verifyBoost (db : DB) (boostId : String) (sessionId : String) (now : Int) :
    DB × Except VerifyErr VerifyResult :=
  match db.boosts.find? (fun b => b.id == boostId) with
  | none => (db, .error .NotFound)
  | some boost =>
    if sessionId ≠ boost.sessionId then (db, .error .Unauthorized)
    else
      let boost' := { boost with verified := true, verifiedAt := some now }
      let boosts := replaceFirst db.boosts boostId boost'
      match alookup db.sessions sessionId with
      | none =>
        ({ db with boosts := boosts },
          .ok { boostAmount := boost.boostAmount, newSpeed := 0 })
      | some s =>
        let taskId := "boost-" ++ boost.id
        let s' : Session :=
          { s with
            miningSpeed := jsOr s.miningSpeed 20 + jsOr boost.boostAmount 0
            completedTasks :=
              if taskId ∈ s.completedTasks then s.completedTasks
              else s.completedTasks ++ [taskId]
            lastActive := some now }
        let sessions := aupdate db.sessions sessionId (fun _ => s')
        ({ db with boosts := boosts, sessions := sessions },
          .ok { boostAmount := boost.boostAmount, newSpeed := s'.miningSpeed })

/-- Errors of `POST /api/withdrawals`. In the spec's taxonomy `MissingFields`,
`InvalidAmount` and `BelowMinimum` are all `InvalidInput`. -/
inductive WithdrawErr where
  | MissingFields
  | NotFound
  | InvalidAmount
  | InsufficientBalance
  | BelowMinimum
  deriving Repr, DecidableEq

/-- The spec's `InvalidInput` class of withdrawal errors: non-numeric or
sub-minimum amount, or a missing required field. -/
def WithdrawErr.isInvalidInput : WithdrawErr → Bool
  | .MissingFields => true
  | .InvalidAmount => true
  | .BelowMinimum => true
  | _ => false

/-- The request body of `POST /api/withdrawals`. -/
structure WithdrawReq where
  sessionId : Option String
  walletAddress : Option String
  amount : Option JsNum
  network : Option String
  deriving Repr, DecidableEq

/-- `POST /api/withdrawals` (lines 347-405): validate the fields, the session,
the numeric coercion, the balance and the 0.001 minimum, then debit the
session immediately, record the pending withdrawal and bump the withdrawal
stats. On every error path the snapshot is returned unchanged (never written). -/
def createWithdrawal (db : DB) (req : WithdrawReq) (withdrawalId : String)
    (now : Int) : DB × Except WithdrawErr (String × ℚ) :=
  match req.sessionId, req.walletAddress, req.amount with
  | some sid, some wallet, some amt =>
    (match alookup db.sessions sid with
      | none => (db, .error .NotFound)
      | some s =>
        match amt with
        | none => (db, .error .InvalidAmount)
        | some a =>
          if jsOr s.minedTokens 0 < a then (db, .error .InsufficientBalance)
          else if a < 1 / 1000 then (db, .error .BelowMinimum)
          else
            let w : Withdrawal :=
              { id := withdrawalId
                sessionId := sid
                walletAddress := wallet
                amount := a
                network := req.network.getD "bsc"
                status := .pending
                createdAt := now
                completedAt := none
                ogadsVerified := false }
            let s' : Session :=
              { s with
                minedTokens := jsOr s.minedTokens 0 - a
                withdrawals := s.withdrawals ++ [withdrawalId]
                lastActive := some now }
            let sessions := aupdate db.sessions sid (fun _ => s')
            let withdrawals := ainsert db.withdrawals withdrawalId w
            ({ db with
                sessions := sessions
                withdrawals := withdrawals
                stats := { db.stats with
                  totalWithdrawals := jsOr db.stats.totalWithdrawals 0 + a
                  totalWithdrawalCount := (withdrawals.length : ℚ) } },
              .ok (withdrawalId, s'.minedTokens)))
  | _, _, _ => (db, .error .MissingFields)

/-- Errors of `POST /api/withdrawals/:withdrawalId/complete`. -/
inductive CompleteErr where
  | NotFound
  | Unauthorized
  | AlreadyCompleted
  deriving Repr, DecidableEq

/-- `POST /api/withdrawals/:withdrawalId/complete` (lines 408-434): reject an
unknown id, an owner mismatch, or a withdrawal already completed — all before
any mutation. On success, mark completed, stamp `completedAt`, set the
verified flag, and touch the owner's `lastActive` if the session still
exists. -/
def completeWithdrawal (db : DB) (withdrawalId : String) (sessionId : String)
    (now : Int) : DB × Except CompleteErr Withdrawal :=
  match alookup db.withdrawals withdrawalId with
  | none => (db, .error .NotFound)
  | some w =>
    if w.sessionId ≠ sessionId then (db, .error .Unauthorized)
    else if w.status = .completed then (db, .error .AlreadyCompleted)
    else
      let w' : Withdrawal :=
        { w with status := .completed, completedAt := some now, ogadsVerified := true }
      let withdrawals := aupdate db.withdrawals withdrawalId (fun _ => w')
      let sessions := aupdate db.sessions sessionId
        (fun s => { s with lastActive := some now })
      ({ db with withdrawals := withdrawals, sessions := sessions }, .ok w')

/-- Non-negativity of every session's mined balance in a snapshot. -/
abbrev nonnegDB (db : DB) : Prop :=
  ∀ p ∈ db.sessions, (0 : ℚ) ≤ p.2.minedTokens

/-! ### Concrete fixtures used by counterexamples and witnesses -/

/-- A concrete session record with the given balance, speed and task list. -/
def mkSession (sid : String) (mined speed : ℚ) (tasks : List String) : Session :=
  { id := sid
    userAgent := "ua"
    startedAt := some 0
    lastActive := some 0
    minedTokens := mined
    miningSpeed := speed
    completedTasks := tasks
    totalMiningTime := 0
    withdrawals := []
    boosts := []
    dailyMined := 0
    lastResetDate := "Mon Jan 01 2024" }

/-- A save-state request that only reports `minedTokens = 10`. -/
def c1Body : StateBody :=
  { minedTokens := some (some 10)
    miningSpeed := none
    completedTasks := none
    totalMiningTime := none
    dailyMined := none }

/-- A withdrawal request of 5 tokens by session `s1`. -/
def c1Req : WithdrawReq :=
  { sessionId := some "s1"
    walletAddress := some "0xabc"
    amount := some (some 5)
    network := none }

/-- Empty snapshot after `createSession`. -/
def c1db1 : DB := createSession DEFAULT_DB "s1" none none 0 "Mon Jan 01 2024"

/-- The session record stored under `s1` after the save-state call of the C1
scenario. -/
def c1Session : Session :=
  applyStateBody c1Body
    { id := "s1"
      userAgent := "Unknown"
      startedAt := some 0
      lastActive := some 0
      minedTokens := 0
      miningSpeed := 20
      completedTasks := []
      totalMiningTime := 0
      withdrawals := []
      boosts := []
      dailyMined := 0
      lastResetDate := "Mon Jan 01 2024" } 1

/-- ... after the client reports a balance of 10. -/
def c1db2 : DB := (setSessionState c1db1 "s1" c1Body 1).1

/-- ... after withdrawing 5: the balance is debited to 5 but `stats.totalMined`
is left at 10. -/
def c1db3 : DB := (createWithdrawal c1db2 c1Req "w1" 2).1

/-- A snapshot holding one boost owned by `s1` whose dedup marker is already in
the session's `completedTasks`. -/
def c2Boost : Boost :=
  { id := "b1"
    sessionId := "s1"
    boostAmount := 5
    createdAt := 0
    verified := true
    verifiedAt := some 0
    taskType := "general" }

/-- Snapshot for the double-verify scenario: the marker `boost-b1` is already
present on the session. -/
def c2db : DB :=
  { DEFAULT_DB with
    sessions := [("s1", mkSession "s1" 0 25 ["boost-b1"])]
    boosts := [c2Boost] }

/-- Snapshot with one session at balance 0. -/
def c3db : DB := { DEFAULT_DB with sessions := [("s1", mkSession "s1" 0 20 [])] }

/-- A save-state request reporting a negative balance. -/
def c3Body : StateBody :=
  { minedTokens := some (some (-5))
    miningSpeed := none
    completedTasks := none
    totalMiningTime := none
    dailyMined := none }

/-- Snapshot with one session at balance 10. -/
def c4db : DB := { DEFAULT_DB with sessions := [("s1", mkSession "s1" 10 20 [])] }

/-- A save-state request whose `minedTokens` is present but coerces to `NaN`. -/
def c4Body : StateBody :=
  { minedTokens := some none
    miningSpeed := none
    completedTasks := none
    totalMiningTime := none
    dailyMined := none }

/-- Snapshot holding one completed withdrawal of session `s1`. -/
def c6Withdrawal : Withdrawal :=
  { id := "w1"
    sessionId := "s1"
    walletAddress := "0xabc"
    amount := 5
    network := "bsc"
    status := .completed
    createdAt := 0
    completedAt := some 1
    ogadsVerified := true }

/-- Snapshot for the already-completed scenario. -/
def c6db : DB :=
  { DEFAULT_DB with
    sessions := [("s1", mkSession "s1" 3 20 [])]
    withdrawals := [("w1", c6Withdrawal)] }

/-- Snapshot with one stale session (24h+1ms old) and one fresh session. -/
def c8db : DB :=
  { DEFAULT_DB with
    sessions :=
      [("old", { mkSession "old" 0 20 [] with lastActive := some 0 }),
        ("new", { mkSession "new" 0 20 [] with lastActive := some 50000000 })] }

/-- An unverified boost whose owning session no longer exists. -/
def c10Boost : Boost :=
  { id := "b1"
    sessionId := "gone"
    boostAmount := 12
    createdAt := 0
    verified := false
    verifiedAt := none
    taskType := "general" }

/-- Snapshot with a dangling boost and no sessions. -/
def c10db : DB := { DEFAULT_DB with boosts := [c10Boost] }

/-- The dangling boost after verification at time 7. -/
def c10Verified : Boost := { c10Boost with verified := true, verifiedAt := some 7 }

/-! ### Helper lemmas about the association-list primitives -/

theorem jsOr_zero (q : ℚ) : jsOr q 0 = q := by
  unfold jsOr
  split <;> simp_all

theorem alookup_mem {α : Type} {m : List (String × α)} {k : String} {v : α}
    (h : alookup m k = some v) : (k, v) ∈ m := by
  induction m with
  | nil => simp [alookup] at h
  | cons p rest ih =>
    rw [alookup] at h
    split at h
    · rename_i hk
      obtain ⟨rfl⟩ := h
      rcases p with ⟨k', v'⟩
      simp_all
    · exact List.mem_cons_of_mem _ (ih h)

theorem alookup_aupdate_self {α : Type} {m : List (String × α)} {k : String}
    {v : α} (f : α → α) (h : alookup m k = some v) :
    alookup (aupdate m k f) k = some (f v) := by
  induction m with
  | nil => simp [alookup] at h
  | cons p rest ih =>
    rw [alookup] at h
    rw [aupdate]
    split at h
    · rename_i hk
      obtain ⟨rfl⟩ := h
      simp [hk, alookup]
    · rename_i hk
      simp only [if_neg hk, alookup, hk, if_false]
      exact ih h

theorem alookup_ainsert_fresh {α : Type} {m : List (String × α)} {k : String}
    (v : α) (h : alookup m k = none) : alookup (ainsert m k v) k = some v := by
  induction m with
  | nil => simp [ainsert, alookup]
  | cons p rest ih =>
    rw [alookup] at h
    split at h
    · exact absurd h (by simp)
    · rename_i hk
      simpa [ainsert, alookup, hk] using ih h

theorem aupdate_forall {α : Type} (P : α → Prop) {m : List (String × α)}
    {k : String} {f : α → α} (h : ∀ q ∈ m, P q.2) (hf : ∀ v, P v → P (f v)) :
    ∀ q ∈ aupdate m k f, P q.2 := by
  induction m with
  | nil => simp [aupdate]
  | cons p rest ih =>
    intro q hq
    rw [aupdate] at hq
    split at hq
    · rcases List.mem_cons.mp hq with h1 | h1
      · subst h1
        exact hf _ (h p (List.mem_cons_self _ _))
      · exact h q (List.mem_cons_of_mem _ h1)
    · rcases List.mem_cons.mp hq with h1 | h1
      · subst h1
        exact h q (List.mem_cons_self _ _)
      · exact ih (fun r hr => h r (List.mem_cons_of_mem _ hr)) q h1

theorem sumMined_aupdate_const {m : List (String × Session)} {k : String}
    {s : Session} (v : Session) (h : alookup m k = some s) :
    sumMined (aupdate m k (fun _ => v)) =
      sumMined m - s.minedTokens + v.minedTokens := by
  induction m with
  | nil => simp [alookup] at h
  | cons p rest ih =>
    rw [alookup] at h
    rw [aupdate]
    split at h
    · rename_i hk
      obtain ⟨rfl⟩ := h
      simp [hk, sumMined]
      ring
    · rename_i hk
      simp only [if_neg hk, sumMined, List.map_cons, List.sum_cons] at *
      rw [ih h]
      ring

theorem filter_of_length_eq {α : Type} {p : α → Bool} {l : List α}
    (h : (l.filter p).length = l.length) : l.filter p = l := by
  induction l with
  | nil => rfl
  | cons a rest ih =>
    by_cases hp : p a
    · rw [List.filter_cons_of_pos hp] at h ⊢
      simp only [List.length_cons, Nat.add_right_cancel_iff] at h
      rw [ih h]
    · exfalso
      rw [List.filter_cons_of_neg hp] at h
      have := List.length_filter_le p rest
      simp only [List.length_cons] at h
      omega

theorem cleanup_sessions_eq (db : DB) (now : Int) :
    (cleanupOldSessions db now).sessions =
      db.sessions.filter (fun p => decide (¬ effLastActive p.2 < now - dayMs)) := by
  simp only [cleanupOldSessions]
  split
  · rfl
  · rename_i h
    have hle := List.length_filter_le
      (fun p => decide (¬ effLastActive p.2 < now - dayMs)) db.sessions
    have hlen : (db.sessions.filter
        (fun p => decide (¬ effLastActive p.2 < now - dayMs))).length
        = db.sessions.length := by omega
    exact (filter_of_length_eq hlen).symm

/-! ### Claim theorems -/

/-- Claim C7: the schema-backfilling reshape applied on load is idempotent —
`reshape (reshape x) = reshape x` for every partial raw snapshot `x` (the
fully shaped result is re-read through `toRaw`), reshaping an already fully
shaped snapshot is the identity, and reshape keeps every top-level field and
every nested stats sub-field that is present in `x`, inserting the default
only when the field is absent. -/
theorem C7_reshape_idempotent :
    (∀ x : RawDB, reshape (toRaw (reshape x)) = reshape x) ∧
    (∀ db : DB, reshape (toRaw db) = db) ∧
    (∀ (x : RawDB) (v : List (String × Session)),
      (reshape { x with sessions := some v }).sessions = v) ∧
    (∀ (x : RawDB) (v : List (String × Withdrawal)),
      (reshape { x with withdrawals := some v }).withdrawals = v) ∧
    (∀ (x : RawDB) (v : List Boost),
      (reshape { x with boosts := some v }).boosts = v) ∧
    (∀ (x : RawDB) (v : List Activity),
      (reshape { x with activities := some v }).activities = v) ∧
    (∀ (x : RawDB) (v : List (String × String)),
      (reshape { x with users := some v }).users = v) ∧
    (∀ (x : RawDB) (r : RawStats) (q : ℚ),
      (reshape { x with stats := some { r with totalMined := some q } }).stats.totalMined = q) ∧
    (∀ x : RawDB, (reshape { x with sessions := none }).sessions = []) ∧
    (∀ x : RawDB, (reshape { x with stats := none }).stats = defaultStats) :=
  ⟨fun _ => rfl, fun _ => rfl, fun _ _ => rfl, fun _ _ => rfl, fun _ _ => rfl,
    fun _ _ => rfl, fun _ _ => rfl, fun _ _ _ => rfl, fun _ => rfl, fun _ => rfl⟩

/-- Claim C9: `load` never fails — an absent or unreadable file and a corrupt
(unparsable) file both yield the default-shaped empty snapshot, and readable
contents are reshaped; the recovery path is a total function. -/
theorem C9_load_fail_open :
    readDB none = DEFAULT_DB ∧ readDB (some none) = DEFAULT_DB ∧
      ∀ raw, readDB (some (some raw)) = reshape raw :=
  ⟨rfl, rfl, fun _ => rfl⟩

/-- Claim C8: the retention sweep keeps exactly the sessions whose effective
last-activity time (`lastActive`, falling back to `startedAt`) is not strictly
older than the 24-hour cutoff relative to `now`, and removes exactly the
strictly older ones; kept sessions are returned unchanged. -/
theorem C8_sweep_exact (db : DB) (now : Int) (p : String × Session) :
    p ∈ (cleanupOldSessions db now).sessions ↔
      p ∈ db.sessions ∧ ¬ effLastActive p.2 < now - dayMs := by
  rw [cleanup_sessions_eq]
  simp [List.mem_filter]

/-- Witness for C8 at a concrete snapshot: with `now` at 100000000 ms the
session last active at time 0 is swept and the one last active at 50000000
is kept. -/
theorem C8_sweep_exact_witness :
    ("old", { mkSession "old" 0 20 [] with lastActive := some 0 }) ∉
        (cleanupOldSessions c8db 100000000).sessions ∧
      ("new", { mkSession "new" 0 20 [] with lastActive := some 50000000 }) ∈
        (cleanupOldSessions c8db 100000000).sessions := by
  constructor
  · intro hmem
    have h := (C8_sweep_exact c8db 100000000
      ("old", { mkSession "old" 0 20 [] with lastActive := some 0 })).mp hmem
    exact h.2 (by decide)
  · exact (C8_sweep_exact c8db 100000000
      ("new", { mkSession "new" 0 20 [] with lastActive := some 50000000 })).mpr
      ⟨by decide, by decide⟩

/-- Counterexample to claim C1: from the empty snapshot, create a session,
report a balance of 10, then withdraw 5. The saved snapshot has
`stats.totalMined = 10` while the sessions' balances sum to 5: the persisted
stats aggregate is not the pure function of the ledgers after
`createWithdrawal`. -/
theorem C1_counterexample :
    c1db3.stats.totalMined = 10 ∧ sumMined c1db3.sessions = 5 ∧
      c1db3.stats.totalMined ≠ sumMined c1db3.sessions := by
  norm_num [c1db3, c1db2, c1db1, c1Req, c1Body, createSession, setSessionState,
    createWithdrawal, applyStateBody, alookup, aupdate, ainsert, sumMined,
    jsOr, numOr, DEFAULT_DB, defaultStats]

/-- Amended claim C1: `stats.totalMined` equals the sum of all sessions'
`minedTokens` in the saved snapshot immediately after a successful
`setSessionState` — the only operation that recomputes it — while
`createWithdrawal` never touches `stats.totalMined` on any path even though
a successful withdrawal lowers the ledger sum by exactly the withdrawn
amount; so after `createWithdrawal` the persisted aggregate is stale, not a
pure function of the ledgers at save time. -/
theorem C1_amended :
    (∀ (db : DB) (sid : String) (body : StateBody) (now : Int),
      (setSessionState db sid body now).2 = true →
        (setSessionState db sid body now).1.stats.totalMined =
          sumMined (setSessionState db sid body now).1.sessions) ∧
    (∀ (db : DB) (req : WithdrawReq) (wid : String) (now : Int),
      (createWithdrawal db req wid now).1.stats.totalMined =
        db.stats.totalMined) ∧
    (∀ (db : DB) (sid wallet wid : String) (net : Option String) (now : Int)
      (s : Session) (a : ℚ),
      alookup db.sessions sid = some s → ¬ s.minedTokens < a → ¬ a < 1 / 1000 →
        sumMined (createWithdrawal db ⟨some sid, some wallet, some (some a), net⟩
            wid now).1.sessions = sumMined db.sessions - a) := by
  refine ⟨?_, ?_, ?_⟩
  · intro db sid body now h
    unfold setSessionState at *
    cases hl : alookup db.sessions sid with
    | none => rw [hl] at h; simp at h
    | some s0 => rfl
  · intro db req wid now
    rcases req with ⟨q1, q2, q3, q4⟩
    unfold createWithdrawal
    cases q1 <;> cases q2 <;> cases q3 <;> try rfl
    rename_i sid wallet amt
    dsimp only
    cases hl : alookup db.sessions sid with
    | none => rfl
    | some s =>
      cases amt with
      | none => rfl
      | some a =>
        dsimp only
        split_ifs <;> rfl
  · intro db sid wallet wid net now s a hl hbal hmin
    unfold createWithdrawal
    dsimp only
    rw [hl]
    dsimp only
    rw [if_neg (by rwa [jsOr_zero]), if_neg hmin]
    dsimp only
    rw [sumMined_aupdate_const _ hl]
    dsimp only
    rw [jsOr_zero]
    ring

/-- Witness for the amended claim C1: after the session reports balance 10,
the saved `totalMined` matches the ledger sum; the subsequent withdrawal of 5
leaves `totalMined` untouched while the ledger sum drops by 5. -/
theorem C1_amended_witness :
    ((setSessionState c1db1 "s1" c1Body 1).1.stats.totalMined =
      sumMined (setSessionState c1db1 "s1" c1Body 1).1.sessions) ∧
    ((createWithdrawal c1db2 c1Req "w1" 2).1.stats.totalMined =
      c1db2.stats.totalMined) ∧
    (sumMined (createWithdrawal c1db2 ⟨some "s1", some "0xabc", some (some 5),
        none⟩ "w1" 2).1.sessions = sumMined c1db2.sessions - 5) := by
  refine ⟨C1_amended.1 c1db1 "s1" c1Body 1 rfl,
    C1_amended.2.1 c1db2 c1Req "w1" 2,
    C1_amended.2.2 c1db2 "s1" "0xabc" "w1" none 2 c1Session 5 rfl ?_ ?_⟩
  · norm_num [c1Session, applyStateBody, c1Body, numOr]
  · norm_num

/-- Counterexample to claim C2: the boost `b1`'s marker `boost-b1` is already
in session `s1`'s completedTasks, yet a further `verifyBoost` call raises the
session's miningSpeed from 25 to 30 — the marker does not stop the re-add. -/
theorem C2_counterexample :
    "boost-b1" ∈ (mkSession "s1" 0 25 ["boost-b1"]).completedTasks ∧
    (alookup c2db.sessions "s1").map Session.miningSpeed = some 25 ∧
    (alookup (verifyBoost c2db "b1" "s1" 1).1.sessions "s1").map
      Session.miningSpeed = some 30 := by
  refine ⟨by simp [mkSession], by simp [c2db, alookup, mkSession], ?_⟩
  norm_num [verifyBoost, c2db, c2Boost, mkSession, alookup, aupdate,
    replaceFirst, List.find?, jsOr]

/-- Amended claim C2: on every successful `verifyBoost` call the boost amount
is added to the owning session's mining speed, even when the `boost-<id>`
marker is already in the session's completedTasks; the marker only prevents a
duplicate copy of itself from being appended (completedTasks stays unchanged).
At-most-once application of the rate effect is not enforced inside
`verifyBoost`; it holds only if the caller consults the marker first. -/
theorem C2_amended (db : DB) (bid : String) (now : Int) (b : Boost) (s : Session)
    (hfind : db.boosts.find? (fun x => x.id == bid) = some b)
    (hs : alookup db.sessions b.sessionId = some s)
    (hmarker : ("boost-" ++ b.id) ∈ s.completedTasks) :
    (alookup (verifyBoost db bid b.sessionId now).1.sessions b.sessionId).map
        Session.miningSpeed = some (jsOr s.miningSpeed 20 + jsOr b.boostAmount 0) ∧
    (alookup (verifyBoost db bid b.sessionId now).1.sessions b.sessionId).map
        Session.completedTasks = some s.completedTasks ∧
    (verifyBoost db bid b.sessionId now).2 =
      .ok { boostAmount := b.boostAmount,
            newSpeed := jsOr s.miningSpeed 20 + jsOr b.boostAmount 0 } := by
  unfold verifyBoost
  rw [hfind]
  dsimp only
  rw [if_neg (fun hne => hne rfl)]
  rw [hs]
  dsimp only
  rw [if_pos hmarker]
  rw [alookup_aupdate_self _ hs]
  exact ⟨rfl, rfl, rfl⟩

/-- Witness for the amended claim C2 at the concrete double-verify snapshot:
speed 25 becomes 25 + 5 while completedTasks stays `[boost-b1]`. -/
theorem C2_amended_witness :
    (alookup (verifyBoost c2db "b1" "s1" 1).1.sessions "s1").map
        Session.miningSpeed = some (jsOr 25 20 + jsOr 5 0) ∧
    (alookup (verifyBoost c2db "b1" "s1" 1).1.sessions "s1").map
        Session.completedTasks = some ["boost-b1"] ∧
    (verifyBoost c2db "b1" "s1" 1).2 =
      .ok { boostAmount := 5, newSpeed := jsOr 25 20 + jsOr 5 0 } := by
  have h := C2_amended c2db "b1" 1 c2Boost (mkSession "s1" 0 25 ["boost-b1"])
    rfl rfl (by simp [mkSession, c2Boost])
  exact h

/-- Counterexample to claim C3: `setSessionState` with a client-reported
`minedTokens` of -5 drives the stored balance of a session that held 0 below
zero — the store does not keep balances non-negative under every operation. -/
theorem C3_counterexample :
    (alookup (setSessionState c3db "s1" c3Body 1).1.sessions "s1").map
        Session.minedTokens = some (-5) ∧
      ¬ nonnegDB (setSessionState c3db "s1" c3Body 1).1 := by
  constructor
  · norm_num [setSessionState, c3db, c3Body, mkSession, applyStateBody,
      alookup, aupdate, numOr]
  · intro h
    have hmem : ("s1", applyStateBody c3Body (mkSession "s1" 0 20 []) 1) ∈
        (setSessionState c3db "s1" c3Body 1).1.sessions := by
      norm_num [setSessionState, c3db, alookup, aupdate]
    have h0 := h _ hmem
    norm_num [applyStateBody, c3Body, numOr, mkSession] at h0

/-- Amended claim C3: every store operation except `setSessionState` preserves
non-negativity of all sessions' `minedTokens` — in particular
`createWithdrawal` can never drive a balance below zero, because it rejects
any amount exceeding the balance before debiting — and `setSessionState`
preserves it exactly when the client-reported `minedTokens` value (if
present) coerces to a non-negative number; a negative client report is
stored as is. -/
theorem C3_amended :
    (∀ (db : DB) (sid : String) (ua : Option String) (st : Option Int)
      (now : Int) (today : String), nonnegDB db →
        nonnegDB (createSession db sid ua st now today)) ∧
    (∀ (db : DB) (sid : String) (now : Int) (today : String), nonnegDB db →
      nonnegDB (getSessionState db sid now today).1) ∧
    (∀ (db : DB) (sid : String) (body : StateBody) (now : Int), nonnegDB db →
      (∀ v, body.minedTokens = some v → 0 ≤ numOr v 0) →
        nonnegDB (setSessionState db sid body now).1) ∧
    (∀ (db : DB) (sid : Option String) (bid : String) (amt : ℚ)
      (rAt : Option Int) (tk : Option String) (now : Int), nonnegDB db →
        nonnegDB (createBoost db sid bid amt rAt tk now).1) ∧
    (∀ (db : DB) (bid sid : String) (now : Int), nonnegDB db →
      nonnegDB (verifyBoost db bid sid now).1) ∧
    (∀ (db : DB) (req : WithdrawReq) (wid : String) (now : Int), nonnegDB db →
      nonnegDB (createWithdrawal db req wid now).1) ∧
    (∀ (db : DB) (wid sid : String) (now : Int), nonnegDB db →
      nonnegDB (completeWithdrawal db wid sid now).1) ∧
    (∀ (db : DB) (now : Int), nonnegDB db →
      nonnegDB (cleanupOldSessions db now)) := by
  refine ⟨?_, ?_, ?_, ?_, ?_, ?_, ?_, ?_⟩
  · intro db sid ua st now today h p hp
    simp only [createSession, ainsert] at hp
    rcases List.mem_append.mp hp with h1 | h1
    · exact h p h1
    · simp only [List.mem_singleton] at h1
      subst h1
      norm_num
  · intro db sid now today h
    unfold getSessionState
    cases hl : alookup db.sessions sid with
    | none => exact h
    | some s0 =>
      intro p hp
      dsimp only at hp
      refine aupdate_forall (fun t => (0 : ℚ) ≤ t.minedTokens) h (fun v hv => ?_) p hp
      have h0 : (0 : ℚ) ≤ s0.minedTokens := h _ (alookup_mem hl)
      show (0 : ℚ) ≤ (if s0.lastResetDate ≠ today then
        { s0 with dailyMined := 0, lastResetDate := today } else s0).minedTokens
      split <;> exact h0
  · intro db sid body now h hbody
    unfold setSessionState
    cases hl : alookup db.sessions sid with
    | none => exact h
    | some s0 =>
      intro p hp
      dsimp only at hp
      refine aupdate_forall (fun t => (0 : ℚ) ≤ t.minedTokens) h (fun v hv => ?_) p hp
      show (0 : ℚ) ≤ (applyStateBody body s0 now).minedTokens
      have h0 : (0 : ℚ) ≤ s0.minedTokens := h _ (alookup_mem hl)
      unfold applyStateBody
      dsimp only
      cases hb : body.minedTokens with
      | none => exact h0
      | some v => exact hbody v hb
  · intro db sid bid amt rAt tk now h
    unfold createBoost
    cases sid with
    | none => exact h
    | some sid0 =>
      dsimp only
      cases hl : alookup db.sessions sid0 with
      | none => exact h
      | some s0 =>
        intro p hp
        dsimp only at hp
        refine aupdate_forall (fun t => (0 : ℚ) ≤ t.minedTokens) h ?_ p hp
        exact fun v hv => hv
  · intro db bid sid now h
    unfold verifyBoost
    cases hf : db.boosts.find? (fun b => b.id == bid) with
    | none => exact h
    | some boost =>
      dsimp only
      split
      · exact h
      · cases hl : alookup db.sessions sid with
        | none => exact h
        | some s0 =>
          intro p hp
          dsimp only at hp
          exact aupdate_forall (fun t => (0 : ℚ) ≤ t.minedTokens) h (fun v hv => h _ (alookup_mem hl)) p hp
  · intro db req wid now h
    rcases req with ⟨q1, q2, q3, q4⟩
    unfold createWithdrawal
    cases q1 <;> cases q2 <;> cases q3 <;> try exact h
    rename_i sid wallet amt
    dsimp only
    cases hl : alookup db.sessions sid with
    | none => exact h
    | some s0 =>
      cases amt with
      | none => exact h
      | some a =>
        dsimp only
        split_ifs with hg1 hg2
        · exact h
        · exact h
        · intro p hp
          dsimp only at hp
          refine aupdate_forall (fun t => (0 : ℚ) ≤ t.minedTokens) h (fun v hv => ?_) p hp
          show (0 : ℚ) ≤ jsOr s0.minedTokens 0 - a
          rw [not_lt] at hg1
          linarith
  · intro db wid sid now h
    unfold completeWithdrawal
    cases hl : alookup db.withdrawals wid with
    | none => exact h
    | some w =>
      dsimp only
      split_ifs
      · exact h
      · exact h
      · intro p hp
        dsimp only at hp
        refine aupdate_forall (fun t => (0 : ℚ) ≤ t.minedTokens) h ?_ p hp
        exact fun v hv => hv
  · intro db now h p hp
    rw [cleanup_sessions_eq] at hp
    exact h p (List.mem_of_mem_filter hp)

/-- Witness for the amended claim C3: the withdrawal of 5 from the balance-10
snapshot and the save-state call reporting 10 both keep every balance
non-negative. -/
theorem C3_amended_witness :
    nonnegDB (createWithdrawal c4db c1Req "w9" 3).1 ∧
      nonnegDB (setSessionState c4db "s1" c1Body 3).1 := by
  constructor
  · refine C3_amended.2.2.2.2.2.1 c4db c1Req "w9" 3 ?_
    intro p hp
    simp only [c4db, DEFAULT_DB, List.mem_singleton] at hp
    subst hp
    norm_num [mkSession]
  · refine C3_amended.2.2.1 c4db "s1" c1Body 3 ?_ ?_
    · intro p hp
      simp only [c4db, DEFAULT_DB, List.mem_singleton] at hp
      subst hp
      norm_num [mkSession]
    · intro v hv
      simp only [c1Body] at hv
      injection hv with hv
      subst hv
      norm_num [numOr]

/-- Counterexample to claim C4: the session holds `minedTokens = 10`; a
save-state request whose `minedTokens` is present but fails numeric coercion
(`Number(...)` is `NaN`) stores 0 instead of keeping the previous value. -/
theorem C4_counterexample :
    (alookup c4db.sessions "s1").map Session.minedTokens = some 10 ∧
      (alookup (setSessionState c4db "s1" c4Body 1).1.sessions "s1").map
        Session.minedTokens = some 0 := by
  constructor
  · norm_num [c4db, alookup, mkSession]
  · norm_num [setSessionState, c4db, c4Body, mkSession, applyStateBody,
      alookup, aupdate, numOr]

/-- Amended claim C4: `setSessionState` leaves every field absent from the
request at its prior stored value, and `miningSpeed`, `totalMiningTime` and
`dailyMined` also keep their previous value when the supplied value fails
numeric coercion — but `minedTokens` does not: a present `minedTokens` that
fails coercion is stored as 0, not as the previous value. -/
theorem C4_amended (db : DB) (sid : String) (body : StateBody) (now : Int)
    (s : Session) (h : alookup db.sessions sid = some s) :
    ∃ s', alookup (setSessionState db sid body now).1.sessions sid = some s' ∧
      (body.minedTokens = none → s'.minedTokens = s.minedTokens) ∧
      (body.miningSpeed = none → s'.miningSpeed = s.miningSpeed) ∧
      (body.completedTasks = none → s'.completedTasks = s.completedTasks) ∧
      (body.totalMiningTime = none → s'.totalMiningTime = s.totalMiningTime) ∧
      (body.dailyMined = none → s'.dailyMined = s.dailyMined) ∧
      (body.miningSpeed = some none → s'.miningSpeed = s.miningSpeed) ∧
      (body.totalMiningTime = some none →
        s'.totalMiningTime = s.totalMiningTime) ∧
      (body.dailyMined = some none → s'.dailyMined = s.dailyMined) ∧
      (body.minedTokens = some none → s'.minedTokens = 0) := by
  refine ⟨applyStateBody body s now, ?_, ?_, ?_, ?_, ?_, ?_, ?_, ?_, ?_, ?_⟩
  · unfold setSessionState
    rw [h]
    dsimp only
    exact alookup_aupdate_self _ h
  all_goals intro hb
  all_goals simp [applyStateBody, hb, numOr, jsOr_zero]

/-- Witness for the amended claim C4: a request carrying only a
non-coercible `minedTokens` leaves speed, tasks, time and daily counter at
their stored values and zeroes the balance. -/
theorem C4_amended_witness :
    ∃ s', alookup (setSessionState c4db "s1" c4Body 1).1.sessions "s1" =
        some s' ∧
      s'.miningSpeed = (mkSession "s1" 10 20 []).miningSpeed ∧
      s'.completedTasks = (mkSession "s1" 10 20 []).completedTasks ∧
      s'.totalMiningTime = (mkSession "s1" 10 20 []).totalMiningTime ∧
      s'.dailyMined = (mkSession "s1" 10 20 []).dailyMined ∧
      s'.minedTokens = 0 := by
  obtain ⟨s', h1, _, h3, h4, h5, h6, _, _, _, h10⟩ :=
    C4_amended c4db "s1" c4Body 1 (mkSession "s1" 10 20 []) rfl
  exact ⟨s', h1, h3 rfl, h4 rfl, h5 rfl, h6 rfl, h10 rfl⟩

/-- Claim C5: for an existing session with balance `b` and any amount with
0.001 ≤ a ≤ b, `createWithdrawal` succeeds, immediately debits the session to
exactly b - a, answers `newBalance = b - a` and records a pending withdrawal;
a non-coercible amount yields the invalid-amount error, an amount above the
balance yields `InsufficientBalance`, an amount below 0.001 (that passes the
balance check) yields the below-minimum error — both `InvalidInput` in the
spec's taxonomy — and an unknown session yields `NotFound`. -/
theorem C5_createWithdrawal_contract (db : DB) (sid wallet wid : String)
    (now : Int) (s : Session)
    (h : alookup db.sessions sid = some s)
    (hw : alookup db.withdrawals wid = none) :
    (∀ a : ℚ, 1 / 1000 ≤ a → a ≤ s.minedTokens →
      ∃ db', createWithdrawal db ⟨some sid, some wallet, some (some a), none⟩
          wid now = (db', .ok (wid, s.minedTokens - a)) ∧
        (alookup db'.sessions sid).map Session.minedTokens =
          some (s.minedTokens - a) ∧
        ∃ w, alookup db'.withdrawals wid = some w ∧ w.status = .pending ∧
          w.amount = a ∧ w.sessionId = sid) ∧
    (createWithdrawal db ⟨some sid, some wallet, some none, none⟩ wid now =
        (db, .error .InvalidAmount) ∧
      WithdrawErr.InvalidAmount.isInvalidInput = true) ∧
    (∀ a : ℚ, s.minedTokens < a →
      createWithdrawal db ⟨some sid, some wallet, some (some a), none⟩ wid now =
        (db, .error .InsufficientBalance)) ∧
    (∀ a : ℚ, a ≤ s.minedTokens → a < 1 / 1000 →
      createWithdrawal db ⟨some sid, some wallet, some (some a), none⟩ wid now =
          (db, .error .BelowMinimum) ∧
        WithdrawErr.BelowMinimum.isInvalidInput = true) ∧
    (∀ (sid2 : String) (amt : JsNum), alookup db.sessions sid2 = none →
      createWithdrawal db ⟨some sid2, some wallet, some amt, none⟩ wid now =
        (db, .error .NotFound)) := by
  refine ⟨?_, ?_, ?_, ?_, ?_⟩
  · intro a hmin hbal
    unfold createWithdrawal
    dsimp only
    rw [h]
    dsimp only
    rw [if_neg (by rw [jsOr_zero]; exact not_lt.mpr hbal),
      if_neg (not_lt.mpr hmin)]
    rw [jsOr_zero]
    refine ⟨_, rfl, ?_, ?_⟩
    · rw [alookup_aupdate_self _ h]
      rfl
    · exact ⟨_, alookup_ainsert_fresh _ hw, rfl, rfl, rfl⟩
  · unfold createWithdrawal
    dsimp only
    rw [h]
    exact ⟨rfl, rfl⟩
  · intro a hlt
    unfold createWithdrawal
    dsimp only
    rw [h]
    dsimp only
    rw [if_pos (by rwa [jsOr_zero])]
  · intro a hle hmin
    unfold createWithdrawal
    dsimp only
    rw [h]
    dsimp only
    rw [if_neg (by rw [jsOr_zero]; exact not_lt.mpr hle), if_pos hmin]
    exact ⟨rfl, rfl⟩
  · intro sid2 amt hs2
    unfold createWithdrawal
    dsimp only
    rw [hs2]

/-- Witness for claim C5 at a concrete balance-10 session: withdrawing 5
succeeds with new balance 5 and a pending record; `NaN`, 11, 0.0005 and an
unknown session hit the four error paths. -/
theorem C5_createWithdrawal_contract_witness :
    (∃ db', createWithdrawal c4db
        ⟨some "s1", some "0xabc", some (some 5), none⟩ "w1" 3 =
          (db', .ok ("w1", (10 : ℚ) - 5)) ∧
      (alookup db'.sessions "s1").map Session.minedTokens =
        some ((10 : ℚ) - 5) ∧
      ∃ w, alookup db'.withdrawals "w1" = some w ∧ w.status = .pending ∧
        w.amount = 5 ∧ w.sessionId = "s1") ∧
    createWithdrawal c4db ⟨some "s1", some "0xabc", some none, none⟩ "w1" 3 =
      (c4db, .error .InvalidAmount) ∧
    createWithdrawal c4db ⟨some "s1", some "0xabc", some (some 11), none⟩
      "w1" 3 = (c4db, .error .InsufficientBalance) ∧
    createWithdrawal c4db
      ⟨some "s1", some "0xabc", some (some (1 / 2000)), none⟩ "w1" 3 =
        (c4db, .error .BelowMinimum) ∧
    createWithdrawal c4db ⟨some "nope", some "0xabc", some (some 5), none⟩
      "w1" 3 = (c4db, .error .NotFound) := by
  have h := C5_createWithdrawal_contract c4db "s1" "0xabc" "w1" 3
    (mkSession "s1" 10 20 []) rfl rfl
  exact ⟨h.1 5 (by norm_num) (by norm_num [mkSession]),
    h.2.1.1,
    h.2.2.1 11 (by norm_num [mkSession]),
    (h.2.2.2.1 (1 / 2000) (by norm_num [mkSession]) (by norm_num)).1,
    h.2.2.2.2 "nope" (some 5) rfl⟩

/-- Claim C6: `completeWithdrawal` on a withdrawal already in `completed`
status, called by the owning session, returns the `AlreadyCompleted` error
and returns the snapshot unchanged — status, `completedAt` and the verified
flag are not mutated again. -/
theorem C6_complete_rejects_repeat (db : DB) (wid : String) (now : Int)
    (w : Withdrawal) (h : alookup db.withdrawals wid = some w)
    (hc : w.status = .completed) :
    completeWithdrawal db wid w.sessionId now = (db, .error .AlreadyCompleted) := by
  unfold completeWithdrawal
  rw [h]
  dsimp only
  rw [if_neg (fun hne => hne rfl), if_pos hc]

/-- Witness for claim C6 at the concrete snapshot holding the completed
withdrawal `w1` of session `s1`. -/
theorem C6_complete_rejects_repeat_witness :
    completeWithdrawal c6db "w1" "s1" 5 = (c6db, .error .AlreadyCompleted) :=
  C6_complete_rejects_repeat c6db "w1" 5 c6Withdrawal rfl rfl

/-- Claim C10: when a boost's owning session record no longer exists,
`verifyBoost` called with the boost's recorded sessionId still succeeds: the
boost is marked verified with `verifiedAt` stamped, `newSpeed` is reported as
0, and the sessions map is not mutated. -/
theorem C10_verify_dangling_session (db : DB) (bid : String) (now : Int)
    (b : Boost) (hfind : db.boosts.find? (fun x => x.id == bid) = some b)
    (hs : alookup db.sessions b.sessionId = none) :
    verifyBoost db bid b.sessionId now =
      ({ db with boosts := replaceFirst db.boosts bid { b with verified := true, verifiedAt := some now } },
        .ok { boostAmount := b.boostAmount, newSpeed := 0 }) ∧
    (verifyBoost db bid b.sessionId now).1.sessions = db.sessions := by
  constructor
  · unfold verifyBoost
    rw [hfind]
    dsimp only
    rw [if_neg (fun hne => hne rfl), hs]
  · unfold verifyBoost
    rw [hfind]
    dsimp only
    rw [if_neg (fun hne => hne rfl), hs]

/-- Witness for claim C10 at the concrete snapshot with a dangling boost:
verifying it succeeds with `newSpeed = 0` and leaves the (empty) sessions
map untouched, while the boost record is marked verified. -/
theorem C10_verify_dangling_session_witness :
    verifyBoost c10db "b1" "gone" 7 =
      ({ c10db with boosts := [c10Verified] },
        .ok { boostAmount := 12, newSpeed := 0 }) ∧
    (verifyBoost c10db "b1" "gone" 7).1.sessions = [] := by
  have h := C10_verify_dangling_session c10db "b1" 7 c10Boost rfl rfl
  exact ⟨h.1, h.2⟩

end NrxBackend
